import Mathlib

/-!
Verification of the core behavior of the Towel YT Downloader (src/tt.py):
the command builder and the execution/streaming runner of the `YTDlpGUI`
class.  The GUI state is embedded as the parts of the widget state the two
operations touch: the display sink (the `output_text` widget, modelled as
the list of text chunks inserted into it), the trigger control (the
`download_button` enabled flag) and the log sink (the `logging` records).
The external process is modelled as a function from the spawned command
vector to an observable behavior: a successful run producing output lines
and an exit code, an exception at spawn time, or an exception after some
lines were already streamed.
-/

/-- Log levels of the Python `logging` calls appearing in tt.py. -/
inductive LogLevel
  | debug
  | info
  | warning
  | error
deriving DecidableEq

/-- GUI state as far as `start_download` / `download_video` touch it:
the display sink contents (list of inserted chunks), the trigger control
enabled flag, and the log sink records. -/
structure AppState where
  output : List String
  buttonEnabled : Bool
  log : List (LogLevel × String)
deriving DecidableEq

/-- Observable behavior of the external process for one spawned command:
either it runs to termination producing output lines and an exit code,
or the spawn itself raises an exception, or an exception is raised after
some lines were already streamed. -/
inductive ProcBehavior
  | success (lines : List String) (exitCode : Int)
  | spawnFail (errMsg : String)
  | streamFail (lines : List String) (errMsg : String)
deriving DecidableEq

/-- tt.py lines 137-141: build the yt-dlp command vector.
`command = ["yt-dlp", "-f", fmt]`, then `if folder:` (Python string
truthiness, i.e. non-empty) append `["--paths", folder]`, then append
`url`. -/
def buildCommand (fmt folder url : String) : List String :=
  (["yt-dlp", "-f", fmt] ++ (if folder = "" then [] else ["--paths", folder])) ++ [url]

/-- Result of one call of `download_video`: the final GUI state, the list
of command vectors passed to `subprocess.Popen`, and the Python return
value of the function (`none` models Python `None`). -/
structure DVResult where
  state : AppState
  spawnAttempts : List (List String)
  ret : Option Int
deriving DecidableEq

/-- Python str.strip with no argument: remove leading and trailing
whitespace characters.  Used by tt.py on the three user inputs (lines
110-112) and on each streamed line before logging it (line 156). -/
def pyStrip (s : String) : String :=
  String.mk (((s.data.dropWhile Char.isWhitespace).reverse.dropWhile
    Char.isWhitespace).reverse)

/-- tt.py lines 153-156, one iteration of the streaming loop: insert the
line into the display sink, scroll to end, and log it at debug level with
surrounding whitespace stripped. -/
def forwardLine (s : AppState) (line : String) : AppState :=
  { s with
      output := s.output ++ [line],
      log := s.log ++ [(LogLevel.debug, pyStrip line)] }

/-- tt.py lines 133-166, `download_video`: build the command, log it,
spawn the process, stream its merged output to the display sink, wait for
termination and log the exit code; on an exception, log and display an
error line; in all cases re-enable the download button (the `finally`
block).  The function body has no `return` statement, so its Python
return value is `None`. -/
def download_video (world : List String → ProcBehavior)
    (url fmt folder : String) (s : AppState) : DVResult :=
  let command := buildCommand fmt folder url
  let s1 : AppState :=
    { s with
        log := s.log ++ [(LogLevel.debug,
          "Executing command: " ++ String.intercalate " " command)] }
  match world command with
  | ProcBehavior.success lines rc =>
      let s2 := lines.foldl forwardLine s1
      let s3 : AppState :=
        { s2 with
            log := s2.log ++ [(LogLevel.info,
              "Download completed with exit code " ++ toString rc)] }
      { state := { s3 with buttonEnabled := true },
        spawnAttempts := [command],
        ret := none }
  | ProcBehavior.spawnFail e =>
      let err := "Exception during download: " ++ e
      let s2 : AppState :=
        { s1 with
            log := s1.log ++ [(LogLevel.error, err)],
            output := s1.output ++ [err ++ "\n"] }
      { state := { s2 with buttonEnabled := true },
        spawnAttempts := [command],
        ret := none }
  | ProcBehavior.streamFail lines e =>
      let s2 := lines.foldl forwardLine s1
      let err := "Exception during download: " ++ e
      let s3 : AppState :=
        { s2 with
            log := s2.log ++ [(LogLevel.error, err)],
            output := s2.output ++ [err ++ "\n"] }
      { state := { s3 with buttonEnabled := true },
        spawnAttempts := [command],
        ret := none }

/-- tt.py lines 105-131, `start_download`, composed with the body of the
worker thread it starts: strip the three inputs; if the stripped URL is
empty, log a warning and append the refusal message to the display sink
without spawning anything; otherwise disable the download button, clear
the display sink, log the start record, and run `download_video`. -/
def start_download (world : List String → ProcBehavior)
    (urlRaw fmtRaw folderRaw : String) (s : AppState) : DVResult :=
  let url := pyStrip urlRaw
  let fmt := pyStrip fmtRaw
  let folder := pyStrip folderRaw
  if url = "" then
    { state :=
        { s with
            log := s.log ++ [(LogLevel.warning, "No URL provided by the user.")],
            output := s.output ++ ["Please enter a valid URL.\n"] },
      spawnAttempts := [],
      ret := none }
  else
    let s1 : AppState := { s with buttonEnabled := false }
    let s2 : AppState := { s1 with output := [] }
    let s3 : AppState :=
      { s2 with
          log := s2.log ++ [(LogLevel.info,
            "Starting download. URL=" ++ url ++ ", Format=" ++ fmt ++
            ", Folder=" ++ (if folder = "" then "Default" else folder))] }
    download_video world url fmt folder s3

theorem foldl_forwardLine_output (lines : List String) (s : AppState) :
    (lines.foldl forwardLine s).output = s.output ++ lines := by
  induction lines generalizing s with
  | nil => simp
  | cons l ls ih => simp [forwardLine, ih]

theorem foldl_forwardLine_button (lines : List String) (s : AppState) :
    (lines.foldl forwardLine s).buttonEnabled = s.buttonEnabled := by
  induction lines generalizing s with
  | nil => rfl
  | cons l ls ih => simp [forwardLine, ih]

theorem foldl_forwardLine_log (lines : List String) (s : AppState) :
    (lines.foldl forwardLine s).log =
      s.log ++ lines.map (fun l => (LogLevel.debug, pyStrip l)) := by
  induction lines generalizing s with
  | nil => simp
  | cons l ls ih => simp [forwardLine, ih]

/-- C1: for every non-empty URL, format string and optional output
directory, the built vector starts with the tool name "yt-dlp", its
second and third elements are the format flag "-f" and the given format
value, and its last element is the given URL; concretely, for URL
"https://example.com/v", format "mp4" and no directory the vector is
exactly ["yt-dlp", "-f", "mp4", "https://example.com/v"]. -/
theorem builder_vector_shape (url fmt folder : String) (h : url ≠ "") :
    (buildCommand fmt folder url).head? = some "yt-dlp" ∧
    (buildCommand fmt folder url)[1]? = some "-f" ∧
    (buildCommand fmt folder url)[2]? = some fmt ∧
    (buildCommand fmt folder url).getLast? = some url ∧
    buildCommand "mp4" "" "https://example.com/v" =
      ["yt-dlp", "-f", "mp4", "https://example.com/v"] := by
  unfold buildCommand
  by_cases hf : folder = "" <;> simp [hf]

theorem builder_vector_shape_witness :
    (buildCommand "mp4" "" "https://example.com/v").head? = some "yt-dlp" ∧
    (buildCommand "mp4" "" "https://example.com/v")[1]? = some "-f" ∧
    (buildCommand "mp4" "" "https://example.com/v")[2]? = some "mp4" ∧
    (buildCommand "mp4" "" "https://example.com/v").getLast? =
      some "https://example.com/v" ∧
    buildCommand "mp4" "" "https://example.com/v" =
      ["yt-dlp", "-f", "mp4", "https://example.com/v"] :=
  builder_vector_shape "https://example.com/v" "mp4" "" (by decide)

/-- C2: every invocation of the runner, whether the process succeeds with
any exit code, the spawn raises, or the streaming raises, finishes with
the trigger control (download button) re-enabled. -/
theorem runner_reenables_button (world : List String → ProcBehavior)
    (url fmt folder : String) (s : AppState) :
    (download_video world url fmt folder s).state.buttonEnabled = true := by
  cases h : world (buildCommand fmt folder url) <;>
    simp [download_video, h]

/-- C3: for every URL input that strips to the empty string (empty or
whitespace-only), triggering a download spawns no process (the runner is
never invoked) and appends the literal message line
"Please enter a valid URL." to the display sink. -/
theorem empty_url_refused (world : List String → ProcBehavior)
    (urlRaw fmtRaw folderRaw : String) (s : AppState)
    (h : pyStrip urlRaw = "") :
    (start_download world urlRaw fmtRaw folderRaw s).spawnAttempts = [] ∧
    (start_download world urlRaw fmtRaw folderRaw s).state.output =
      s.output ++ ["Please enter a valid URL.\n"] := by
  simp [start_download, h]

theorem empty_url_refused_witness :
    (start_download (fun _ => ProcBehavior.success [] 0) "   " "mp4" ""
        { output := ["old\n"], buttonEnabled := true, log := [] }).spawnAttempts = [] ∧
    (start_download (fun _ => ProcBehavior.success [] 0) "   " "mp4" ""
        { output := ["old\n"], buttonEnabled := true, log := [] }).state.output =
      ["old\n"] ++ ["Please enter a valid URL.\n"] :=
  empty_url_refused (fun _ => ProcBehavior.success [] 0) "   " "mp4" ""
    { output := ["old\n"], buttonEnabled := true, log := [] } (by decide)

/-- C4: for every simulated process whose merged output stream is the
list `lines`, the runner forwards exactly those lines to the display
sink, verbatim and in order, and afterwards the trigger control is
enabled. -/
theorem streaming_forwards_all_lines (world : List String → ProcBehavior)
    (url fmt folder : String) (s : AppState) (lines : List String) (rc : Int)
    (h : world (buildCommand fmt folder url) = ProcBehavior.success lines rc) :
    (download_video world url fmt folder s).state.output = s.output ++ lines ∧
    (download_video world url fmt folder s).state.buttonEnabled = true := by
  simp [download_video, h, foldl_forwardLine_output]

theorem streaming_forwards_all_lines_witness :
    (download_video (fun _ => ProcBehavior.success ["a\n", "b\n", "c\n"] 0)
        "https://example.com/v" "mp4" ""
        { output := [], buttonEnabled := false, log := [] }).state.output =
      [] ++ ["a\n", "b\n", "c\n"] ∧
    (download_video (fun _ => ProcBehavior.success ["a\n", "b\n", "c\n"] 0)
        "https://example.com/v" "mp4" ""
        { output := [], buttonEnabled := false, log := [] }).state.buttonEnabled = true :=
  streaming_forwards_all_lines (fun _ => ProcBehavior.success ["a\n", "b\n", "c\n"] 0)
    "https://example.com/v" "mp4" ""
    { output := [], buttonEnabled := false, log := [] } ["a\n", "b\n", "c\n"] 0 rfl

/-- C5: for every run in which the spawn raises, the runner forwards
zero data lines and exactly one error line to the display sink, and the
trigger control ends enabled. -/
theorem spawn_failure_one_error_line (world : List String → ProcBehavior)
    (url fmt folder : String) (s : AppState) (e : String)
    (h : world (buildCommand fmt folder url) = ProcBehavior.spawnFail e) :
    (download_video world url fmt folder s).state.output =
      s.output ++ ["Exception during download: " ++ e ++ "\n"] ∧
    (download_video world url fmt folder s).state.buttonEnabled = true := by
  simp [download_video, h]

theorem spawn_failure_one_error_line_witness :
    (download_video (fun _ => ProcBehavior.spawnFail "No such file or directory")
        "https://example.com/v" "mp4" ""
        { output := [], buttonEnabled := false, log := [] }).state.output =
      [] ++ ["Exception during download: " ++ "No such file or directory" ++ "\n"] ∧
    (download_video (fun _ => ProcBehavior.spawnFail "No such file or directory")
        "https://example.com/v" "mp4" ""
        { output := [], buttonEnabled := false, log := [] }).state.buttonEnabled = true :=
  spawn_failure_one_error_line (fun _ => ProcBehavior.spawnFail "No such file or directory")
    "https://example.com/v" "mp4" ""
    { output := [], buttonEnabled := false, log := [] } "No such file or directory" rfl

theorem download_video_success_log (world : List String → ProcBehavior)
    (url fmt folder : String) (s : AppState) (lines : List String) (rc : Int)
    (h : world (buildCommand fmt folder url) = ProcBehavior.success lines rc) :
    (download_video world url fmt folder s).state.log =
      ((s.log ++ [(LogLevel.debug,
          "Executing command: " ++ String.intercalate " " (buildCommand fmt folder url))])
        ++ lines.map (fun l => (LogLevel.debug, pyStrip l)))
      ++ [(LogLevel.info, "Download completed with exit code " ++ toString rc)] := by
  simp [download_video, h, foldl_forwardLine_log]

/-- C6: for every build with a non-empty output directory, the vector
contains the destination-path flag "--paths" immediately followed by that
exact directory string (indeed it is exactly
["yt-dlp", "-f", fmt, "--paths", folder, url]); for every build with no
directory, the builder adds no destination-path flag: the vector is
exactly ["yt-dlp", "-f", fmt, url]. -/
theorem builder_path_flag (url fmt folder : String) :
    (folder ≠ "" →
       buildCommand fmt folder url =
         ["yt-dlp", "-f", fmt, "--paths", folder, url] ∧
       ∃ l1 l2, buildCommand fmt folder url = l1 ++ ["--paths", folder] ++ l2) ∧
    (folder = "" →
       buildCommand fmt folder url = ["yt-dlp", "-f", fmt, url]) := by
  constructor
  · intro hf
    refine ⟨by simp [buildCommand, hf], ⟨["yt-dlp", "-f", fmt], [url], ?_⟩⟩
    simp [buildCommand, hf]
  · intro hf
    simp [buildCommand, hf]

theorem builder_path_flag_witness :
    (buildCommand "mp4" "/tmp/out" "https://example.com/v" =
       ["yt-dlp", "-f", "mp4", "--paths", "/tmp/out", "https://example.com/v"] ∧
     ∃ l1 l2, buildCommand "mp4" "/tmp/out" "https://example.com/v" =
       l1 ++ ["--paths", "/tmp/out"] ++ l2) ∧
    buildCommand "mp4" "" "https://example.com/u" =
      ["yt-dlp", "-f", "mp4", "https://example.com/u"] :=
  ⟨(builder_path_flag "https://example.com/v" "mp4" "/tmp/out").1 (by decide),
   (builder_path_flag "https://example.com/u" "mp4" "").2 rfl⟩

/-- C7 counterexample: on a run where the external process terminates
normally with exit code 0, the Python return value of download_video is
None, not the exit code: the claim that the runner returns the exit code
to its caller as the result of the run operation is false. -/
theorem runner_return_counterexample :
    (download_video (fun _ => ProcBehavior.success ["done\n"] 0)
        "https://example.com/v" "mp4" ""
        { output := [], buttonEnabled := false, log := [] }).ret ≠ some 0 := by
  simp [download_video]

/-- C7 amended: on normal termination the runner waits for the process,
obtains the exit code, and records it in the log as the info line
"Download completed with exit code N"; the run operation itself returns
None (the exit code is not returned to the caller). -/
theorem runner_records_exit_code (world : List String → ProcBehavior)
    (url fmt folder : String) (s : AppState) (lines : List String) (rc : Int)
    (h : world (buildCommand fmt folder url) = ProcBehavior.success lines rc) :
    (download_video world url fmt folder s).state.log.getLast? =
      some (LogLevel.info, "Download completed with exit code " ++ toString rc) ∧
    (download_video world url fmt folder s).ret = none := by
  constructor
  · rw [download_video_success_log world url fmt folder s lines rc h]
    exact List.getLast?_concat _
  · simp [download_video, h]

theorem runner_records_exit_code_witness :
    (download_video (fun _ => ProcBehavior.success ["done\n"] 2)
        "https://example.com/v" "mp4" ""
        { output := [], buttonEnabled := false, log := [] }).state.log.getLast? =
      some (LogLevel.info, "Download completed with exit code " ++ toString (2 : Int)) ∧
    (download_video (fun _ => ProcBehavior.success ["done\n"] 2)
        "https://example.com/v" "mp4" ""
        { output := [], buttonEnabled := false, log := [] }).ret = none :=
  runner_records_exit_code (fun _ => ProcBehavior.success ["done\n"] 2)
    "https://example.com/v" "mp4" ""
    { output := [], buttonEnabled := false, log := [] } ["done\n"] 2 rfl

/-- C8: two runs identical except for the external process exit code
produce identical display-sink contents and trigger-control state; the
exit code appears only in the final info log line
"Download completed with exit code N" appended to a common log. -/
theorem exit_code_noninterference (url fmt folder : String) (s : AppState)
    (lines : List String) (rc1 rc2 : Int) :
    (download_video (fun _ => ProcBehavior.success lines rc1) url fmt folder s).state.output =
      (download_video (fun _ => ProcBehavior.success lines rc2) url fmt folder s).state.output ∧
    (download_video (fun _ => ProcBehavior.success lines rc1) url fmt folder s).state.buttonEnabled =
      (download_video (fun _ => ProcBehavior.success lines rc2) url fmt folder s).state.buttonEnabled ∧
    ∃ pre,
      (download_video (fun _ => ProcBehavior.success lines rc1) url fmt folder s).state.log =
        pre ++ [(LogLevel.info, "Download completed with exit code " ++ toString rc1)] ∧
      (download_video (fun _ => ProcBehavior.success lines rc2) url fmt folder s).state.log =
        pre ++ [(LogLevel.info, "Download completed with exit code " ++ toString rc2)] := by
  refine ⟨?_, ?_, ?_⟩
  · simp [download_video, foldl_forwardLine_output]
  · simp [download_video, foldl_forwardLine_button]
  · refine ⟨(s.log ++ [(LogLevel.debug,
        "Executing command: " ++ String.intercalate " " (buildCommand fmt folder url))])
        ++ lines.map (fun l => (LogLevel.debug, pyStrip l)), ?_, ?_⟩ <;>
      rw [download_video_success_log _ url fmt folder s lines _ rfl]

/-- C9: on every started download the three inputs are stripped of
leading and trailing whitespace before the argument vector is built: the
single spawned command is the build over the stripped inputs; in
particular a whitespace-only output-directory input strips to the empty
string, so the spawned vector carries no destination-path flag. -/
theorem inputs_stripped_before_build (world : List String → ProcBehavior)
    (urlRaw fmtRaw folderRaw : String) (s : AppState)
    (h : pyStrip urlRaw ≠ "") :
    (start_download world urlRaw fmtRaw folderRaw s).spawnAttempts =
      [buildCommand (pyStrip fmtRaw) (pyStrip folderRaw) (pyStrip urlRaw)] ∧
    (pyStrip folderRaw = "" →
      (start_download world urlRaw fmtRaw folderRaw s).spawnAttempts =
        [["yt-dlp", "-f", pyStrip fmtRaw, pyStrip urlRaw]]) := by
  have h1 : (start_download world urlRaw fmtRaw folderRaw s).spawnAttempts =
      [buildCommand (pyStrip fmtRaw) (pyStrip folderRaw) (pyStrip urlRaw)] := by
    cases hw : world (buildCommand (pyStrip fmtRaw) (pyStrip folderRaw) (pyStrip urlRaw)) <;>
      simp [start_download, download_video, h, hw]
  refine ⟨h1, fun hf => ?_⟩
  rw [h1, hf]
  simp [buildCommand]

theorem inputs_stripped_before_build_witness :
    (start_download (fun _ => ProcBehavior.success [] 0)
        " https://example.com/v " " mp4 " "  "
        { output := [], buttonEnabled := true, log := [] }).spawnAttempts =
      [buildCommand (pyStrip " mp4 ") (pyStrip "  ") (pyStrip " https://example.com/v ")] ∧
    (start_download (fun _ => ProcBehavior.success [] 0)
        " https://example.com/v " " mp4 " "  "
        { output := [], buttonEnabled := true, log := [] }).spawnAttempts =
      [["yt-dlp", "-f", pyStrip " mp4 ", pyStrip " https://example.com/v "]] :=
  ⟨(inputs_stripped_before_build (fun _ => ProcBehavior.success [] 0)
      " https://example.com/v " " mp4 " "  "
      { output := [], buttonEnabled := true, log := [] } (by decide)).1,
   (inputs_stripped_before_build (fun _ => ProcBehavior.success [] 0)
      " https://example.com/v " " mp4 " "  "
      { output := [], buttonEnabled := true, log := [] } (by decide)).2 (by decide)⟩

/-- C10: on an empty or whitespace-only URL the display sink is not
cleared: its prior contents are preserved with the refusal message
appended after them, and the trigger control keeps its prior state (it
is never disabled); on a trigger that starts a download, the outcome is
independent of the prior display contents, i.e. the display sink is
cleared only then. -/
theorem refusal_frame_effects (world : List String → ProcBehavior)
    (urlRaw fmtRaw folderRaw : String) (s : AppState) :
    (pyStrip urlRaw = "" →
       (start_download world urlRaw fmtRaw folderRaw s).state.output =
         s.output ++ ["Please enter a valid URL.\n"] ∧
       (start_download world urlRaw fmtRaw folderRaw s).state.buttonEnabled =
         s.buttonEnabled) ∧
    (pyStrip urlRaw ≠ "" →
       start_download world urlRaw fmtRaw folderRaw s =
         start_download world urlRaw fmtRaw folderRaw { s with output := [] }) := by
  constructor
  · intro h
    simp [start_download, h]
  · intro h
    simp [start_download, h]

theorem refusal_frame_effects_witness :
    ((start_download (fun _ => ProcBehavior.success [] 0) " " "mp4" ""
        { output := ["keep\n"], buttonEnabled := true, log := [] }).state.output =
      ["keep\n"] ++ ["Please enter a valid URL.\n"] ∧
     (start_download (fun _ => ProcBehavior.success [] 0) " " "mp4" ""
        { output := ["keep\n"], buttonEnabled := true, log := [] }).state.buttonEnabled =
      true) ∧
    start_download (fun _ => ProcBehavior.success [] 0) "u" "mp4" ""
        { output := ["keep\n"], buttonEnabled := true, log := [] } =
      start_download (fun _ => ProcBehavior.success [] 0) "u" "mp4" ""
        { output := [], buttonEnabled := true, log := [] } :=
  ⟨(refusal_frame_effects (fun _ => ProcBehavior.success [] 0) " " "mp4" ""
      { output := ["keep\n"], buttonEnabled := true, log := [] }).1 (by decide),
   (refusal_frame_effects (fun _ => ProcBehavior.success [] 0) "u" "mp4" ""
      { output := ["keep\n"], buttonEnabled := true, log := [] }).2 (by decide)⟩
